import Mathlib

/-!
Verification of the reroot pipeline scripts (alter_gbff.py, tree_time.py,
tree_time_updated.py) against their natural-language specification.

The Python code is shallowly embedded: pure fragments become Lean functions,
in-place mutation becomes explicit result records, fatal errors (sys.exit,
uncaught exceptions) become Except values, and Python floats are modelled by
exact rationals.
-/

namespace Reroot

/-! ## Embedding of alter_gbff.py -/

/-- Nucleotide alphabet of the genome sequences (the 4-letter alphabet). -/
inductive Base
  | A
  | C
  | G
  | T
deriving DecidableEq

/-- Watson-Crick complement of a nucleotide. -/
def complement : Base → Base
  | .A => .T
  | .T => .A
  | .C => .G
  | .G => .C

/-- Biopython Seq.reverse_complement: reverse the sequence and complement each base. -/
def reverseComplement (s : List Base) : List Base :=
  (s.reverse).map complement

/-- The standard genetic code, as used by Biopython Seq.translate with the
default table: each codon maps to an amino-acid symbol, stop codons map
to the asterisk symbol. -/
def translateCodon : Base → Base → Base → Char
  | .T, .T, .T => 'F'
  | .T, .T, .C => 'F'
  | .T, .T, .A => 'L'
  | .T, .T, .G => 'L'
  | .C, .T, _ => 'L'
  | .A, .T, .T => 'I'
  | .A, .T, .C => 'I'
  | .A, .T, .A => 'I'
  | .A, .T, .G => 'M'
  | .G, .T, _ => 'V'
  | .T, .C, _ => 'S'
  | .C, .C, _ => 'P'
  | .A, .C, _ => 'T'
  | .G, .C, _ => 'A'
  | .T, .A, .T => 'Y'
  | .T, .A, .C => 'Y'
  | .T, .A, .A => '*'
  | .T, .A, .G => '*'
  | .C, .A, .T => 'H'
  | .C, .A, .C => 'H'
  | .C, .A, .A => 'Q'
  | .C, .A, .G => 'Q'
  | .A, .A, .T => 'N'
  | .A, .A, .C => 'N'
  | .A, .A, .A => 'K'
  | .A, .A, .G => 'K'
  | .G, .A, .T => 'D'
  | .G, .A, .C => 'D'
  | .G, .A, .A => 'E'
  | .G, .A, .G => 'E'
  | .T, .G, .T => 'C'
  | .T, .G, .C => 'C'
  | .T, .G, .A => '*'
  | .T, .G, .G => 'W'
  | .C, .G, _ => 'R'
  | .A, .G, .T => 'S'
  | .A, .G, .C => 'S'
  | .A, .G, .A => 'R'
  | .A, .G, .G => 'R'
  | .G, .G, _ => 'G'

/-- Biopython Seq.translate with to_stop=False: translate successive complete
codons, keeping stop symbols in place (no truncation at the first stop);
a trailing incomplete codon is dropped. -/
def translateSeq : List Base → List Char
  | b1 :: b2 :: b3 :: rest => translateCodon b1 b2 b3 :: translateSeq rest
  | _ => []

/-- Location of a feature: either a simple contiguous FeatureLocation with
0-based half-open range and a strand (Biopython strand is 1, -1, 0 or None,
modelled as Option Int), or a compound (joined) location, which
alter_gbff leaves untouched. -/
inductive Location
  | simple (start stop : Nat) (strand : Option Int)
  | compound (parts : List (Nat × Nat × Option Int))
deriving DecidableEq

/-- A SeqFeature: type tag, location and qualifier mapping (key to value list).
The qualifier dict is modelled as an insertion-ordered association list. -/
structure Feature where
  ftype : String
  location : Location
  qualifiers : List (String × List String)
deriving DecidableEq

/-- Python dict assignment d[k] = v on an insertion-ordered association list:
replace the value in place if the key is present, otherwise append. -/
def dictSet {α : Type} (k : String) (v : α) : List (String × α) → List (String × α)
  | [] => [(k, v)]
  | (k0, v0) :: rest => if k0 = k then (k, v) :: rest else (k0, v0) :: dictSet k v rest

/-- A SeqRecord: sequence, identifiers, description, top-level annotation map
and feature list. -/
structure SeqRecord where
  seq : List Base
  id : String
  name : String
  description : String
  annots : List (String × String)
  features : List Feature
deriving DecidableEq

/-- Python slice s[start:stop] for 0 ≤ start and 0 ≤ stop (clamping at the
ends, empty when start ≥ stop). -/
def pySlice (s : List Base) (start stop : Nat) : List Base :=
  (s.drop start).take (stop - start)

/-- Body of the per-feature loop of alter_gbff: for a CDS, gene or mRNA
feature with a simple FeatureLocation, slice the altered sequence at
[start, stop), reverse-complement it when strand is -1, and for a CDS
overwrite the translation qualifier with the translation of that slice
(to_stop=False). All other features pass through unchanged. -/
def alterFeature (s : List Base) (f : Feature) : Feature :=
  if f.ftype = "CDS" ∨ f.ftype = "gene" ∨ f.ftype = "mRNA" then
    match f.location with
    | .simple start stop strand =>
        let featureSeq := pySlice s start stop
        let featureSeq := if strand = some (-1) then reverseComplement featureSeq else featureSeq
        if f.ftype = "CDS" then
          { f with qualifiers := dictSet "translation" [String.mk (translateSeq featureSeq)] f.qualifiers }
        else f
    | .compound _ => f
  else f

/-- alter_gbff: build the altered record from the FASTA record's sequence and
name, the GBFF record's annotation map, and the (shared, then mutated in
place) GBFF feature list; the loop over the features is the map below. -/
def alter_gbff (gbff_record fasta_record : SeqRecord) : SeqRecord :=
  { seq := fasta_record.seq
    id := fasta_record.name
    name := fasta_record.name
    description := fasta_record.description
    annots := gbff_record.annots
    features := gbff_record.features.map (alterFeature fasta_record.seq) }

/-- State of the input GBFF record after alter_gbff returns: the Python code
passes features=gbff_record.features by reference into the new record and then
mutates each feature in place, so the caller's record ends up carrying the
updated features while keeping its own sequence and other fields. -/
def alter_gbff_post (gbff_record fasta_record : SeqRecord) : SeqRecord :=
  { gbff_record with features := gbff_record.features.map (alterFeature fasta_record.seq) }

/-- alter_gbff_file after the two records have been read: the length guard and
the call to alter_gbff (a length mismatch prints to stderr and exits 1, so no
output record is ever written). File reading and writing are elided. -/
def alter_gbff_file (gbff_record fasta_record : SeqRecord) : Except String SeqRecord :=
  if gbff_record.seq.length ≠ fasta_record.seq.length then
    Except.error "Error: The length of the FASTA sequence must match the length of the GBFF sequence."
  else
    Except.ok (alter_gbff gbff_record fasta_record)

/-- Decidable equality of Except values, for evaluating the embedded fallible
functions on concrete inputs. -/
instance {ε α : Type} [DecidableEq ε] [DecidableEq α] : DecidableEq (Except ε α) := fun x y =>
  match x, y with
  | Except.ok a, Except.ok b =>
      if h : a = b then isTrue (by rw [h])
      else isFalse (by intro he; cases he; exact h rfl)
  | Except.ok _, Except.error _ => isFalse (by intro h; cases h)
  | Except.error _, Except.ok _ => isFalse (by intro h; cases h)
  | Except.error e, Except.error f =>
      if h : e = f then isTrue (by rw [h])
      else isFalse (by intro he; cases he; exact h rfl)

/-! ## Embedding of tree_time_updated.py and tree_time.py -/

/-- Python str.startswith(p): p is a prefix of the string. -/
def pyStartswith (s p : String) : Bool :=
  List.isPrefixOf p.toList s.toList

/-- Python default whitespace for str.strip(). -/
def pyIsSpace (c : Char) : Bool :=
  c = ' ' ∨ c = '\t' ∨ c = '\n' ∨ c = '\x0d' ∨ c = '\x0b' ∨ c = '\x0c'

/-- Python str.strip(): drop leading and trailing whitespace. -/
def pyStrip (s : String) : String :=
  String.mk (((s.toList.dropWhile pyIsSpace).reverse.dropWhile pyIsSpace).reverse)

/-- Test of re.match for the pattern of one character class [0-9]. -/
def isPyDigit (c : Char) : Bool :=
  decide ('0' ≤ c ∧ c ≤ '9')

/-- Value of a decimal digit character. -/
def digitVal (c : Char) : Option Nat :=
  if '0' ≤ c ∧ c ≤ '9' then some (c.toNat - '0'.toNat) else none

/-- Value of a nonempty all-digit character list. -/
def digitsVal (cs : List Char) : Option Nat :=
  if cs = [] then none
  else cs.foldlM (fun acc c => (digitVal c).map (fun d => acc * 10 + d)) 0

/-- Python int(s) on an already-stripped literal: optional sign followed by
decimal digits; anything else raises ValueError. -/
def pyInt (s : String) : Except String Int :=
  match s.toList with
  | '-' :: rest =>
      match digitsVal rest with
      | some n => Except.ok (-(n : Int))
      | none => Except.error "ValueError: invalid literal for int with base 10"
  | '+' :: rest =>
      match digitsVal rest with
      | some n => Except.ok (n : Int)
      | none => Except.error "ValueError: invalid literal for int with base 10"
  | cs =>
      match digitsVal cs with
      | some n => Except.ok (n : Int)
      | none => Except.error "ValueError: invalid literal for int with base 10"

/-- Test of re.match with pattern caret [0-9]\x7b4\x7d (no anchor at the end):
the string has at least four characters and the first four are digits; used by
get_dates to decide whether a date value is real. -/
def leadingYearMatch (s : String) : Bool :=
  match s.toList with
  | a :: b :: c :: d :: _ => isPyDigit a && isPyDigit b && isPyDigit c && isPyDigit d
  | _ => false

/-- Test of re.match with pattern caret [0-9]\x7b4\x7d dollar: exactly a
4-digit year. -/
def matchYear (s : String) : Bool :=
  match s.toList with
  | [a, b, c, d] => isPyDigit a && isPyDigit b && isPyDigit c && isPyDigit d
  | _ => false

/-- Test of re.match with the anchored pattern for YYYY-MM: four digits, a
dash, two digits and nothing else. -/
def matchYearMonth (s : String) : Bool :=
  match s.toList with
  | [a, b, c, d, h, m1, m2] =>
      isPyDigit a && isPyDigit b && isPyDigit c && isPyDigit d &&
        decide (h = '-') && isPyDigit m1 && isPyDigit m2
  | _ => false

/-- Metadata table metadata.tsv.gz after decompression and tab-splitting:
the header line's fields and the data rows' fields (the trailing newline of
each line already stripped by rstrip, as the source does). -/
structure Metadata where
  header : List String
  rows : List (List String)
deriving DecidableEq

/-- Row scan of get_dates: for each data row take the name and date columns
(a too-short row raises IndexError), record name -> date in the dict when the
date has a leading 4-digit year, and count matching and total rows. -/
def scanDateRows (nameIdx dateIdx : Nat) (rows : List (List String)) :
    Except String (List (String × String) × Nat × Nat) :=
  rows.foldlM
    (fun acc fields =>
      match fields.get? nameIdx, fields.get? dateIdx with
      | some name, some date =>
          if leadingYearMatch date then
            Except.ok (dictSet name date acc.1, acc.2.1 + 1, acc.2.2 + 1)
          else
            Except.ok (acc.1, acc.2.1, acc.2.2 + 1)
      | _, _ => Except.error "IndexError: list index out of range")
    ([], 0, 0)

/-- get_dates: locate the strain and date columns in the stripped header
(list.index raises ValueError when absent; a strain column not in first
position exits 1), scan the data rows, and return the name -> date dict
together with real_date_count / line_count; with zero data rows the division
raises ZeroDivisionError. -/
def get_dates (md : Metadata) : Except String (List (String × String) × Rat) :=
  let header := md.header.map pyStrip
  match List.indexOf? "strain" header with
  | none => Except.error "ValueError: strain is not in list"
  | some nameIdx =>
      if nameIdx ≠ 0 then Except.error "Uh-oh, name_idx is not 0"
      else
        match List.indexOf? "date" header with
        | none => Except.error "ValueError: date is not in list"
        | some dateIdx =>
            match scanDateRows nameIdx dateIdx md.rows with
            | Except.error e => Except.error e
            | Except.ok (nameToDate, realDateCount, lineCount) =>
                if lineCount = 0 then
                  Except.error "ZeroDivisionError: division by zero"
                else
                  Except.ok (nameToDate, mkRat realDateCount lineCount)

/-- Date canonicalization step of make_dates_csv: a bare 4-digit year gets
-XX-XX appended, a YYYY-MM date gets -XX appended, anything else passes
through unchanged. -/
def normalizeDate (d : String) : String :=
  if matchYear d then d ++ "-XX-XX"
  else if matchYearMonth d then d ++ "-XX"
  else d

/-- make_dates_csv: the lines written to dates.csv, a header line followed by
one name,date line per entry of the mapping in its iteration order. -/
def make_dates_csv (nameToDate : List (String × String)) : List String :=
  "name,date" :: nameToDate.map (fun p => p.1 ++ "," ++ normalizeDate p.2)

/-- output_stats.tsv as seen through csv.DictReader: the header field names
and, per data row, the mapping from field name to raw cell text. -/
structure StatsTable where
  fieldnames : List String
  rows : List (List (String × String))
deriving DecidableEq

/-- Loop body of get_refseq_len: rebind the variable to int(row[col]) for every
row, so the last row's value survives; a missing cell makes int() raise, and
with zero rows the variable is never bound (none). -/
def lastColumnValue (col : String) (rows : List (List (String × String))) :
    Except String (Option Int) :=
  rows.foldlM
    (fun _ row =>
      match List.lookup col row with
      | none => Except.error "TypeError: int() argument must not be None"
      | some cell => (pyInt cell).map some)
    none

/-- get_refseq_len of tree_time_updated.py: exit 1 when the ref_length column
is absent, otherwise return the last row's parsed ref_length (unbound local
when the table has no data rows). No check of the value's sign is made. -/
def get_refseq_len (t : StatsTable) : Except String Int :=
  if "ref_length" ∈ t.fieldnames then
    match lastColumnValue "ref_length" t.rows with
    | Except.error e => Except.error e
    | Except.ok none => Except.error "NameError: ref_length referenced before assignment"
    | Except.ok (some v) => Except.ok v
  else
    Except.error "output_stats.tsv file does not have ref_length column"

/-- get_refseq_len of tree_time.py: return -1 when the refseq_length column is
absent (no error), otherwise the last row's parsed refseq_length. -/
def get_refseq_len_old (t : StatsTable) : Except String Int :=
  if "refseq_length" ∈ t.fieldnames then
    match lastColumnValue "refseq_length" t.rows with
    | Except.error e => Except.error e
    | Except.ok none => Except.error "NameError: refseq_length referenced before assignment"
    | Except.ok (some v) => Except.ok v
  else
    Except.ok (-1)

/-- Observable actions of run_treetime after the date gate, in program order. -/
inductive PipelineAction
  | logLowDates
  | exitProcess (code : Nat)
  | getRefLen
  | writeScaledTree
  | writeDatesCsv
  | runTreetimeClock
deriving DecidableEq

/-- Gate portion of run_treetime (tree_time_updated.py lines 103-115): after
get_dates returns the proportion, a proportion below the threshold logs the
reason and exits with status 0 before any output is produced; otherwise the
run continues with get_refseq_len, scale_branch_lengths, make_dates_csv and
the treetime clock invocation. -/
def run_treetime_gate (proportion threshold : Rat) : List PipelineAction :=
  if proportion < threshold then
    [PipelineAction.logLowDates, PipelineAction.exitProcess 0]
  else
    [PipelineAction.getRefLen, PipelineAction.writeScaledTree,
      PipelineAction.writeDatesCsv, PipelineAction.runTreetimeClock]

/-- Folding step of the get_oldest_node loop: a row whose first column starts
with the internal-node marker node_ replaces the running (min_date,
oldest_node) pair exactly when its age is strictly below the running minimum;
other rows leave the state unchanged. -/
def oldestStep (acc : Option (Rat × String)) (row : String × Rat) : Option (Rat × String) :=
  if pyStartswith row.1 "node_" then
    match acc with
    | none => some (row.2, row.1)
    | some (m, n) => if row.2 < m then some (row.2, row.1) else some (m, n)
  else acc

/-- get_oldest_node over the parsed rows of rtt.csv (first column the node
name, second column the age, already split and parsed; the age of a
non-matching row is never inspected by the source): fold the loop and exit 1
when no row qualified. -/
def get_oldest_node (rows : List (String × Rat)) : Except String String :=
  match rows.foldl oldestStep none with
  | some (_, n) => Except.ok n
  | none => Except.error "Failed to get oldest node from rtt.csv"

/-- Python runtime value of the min_real_dates variable: argparse delivers a
string, the built-in default is the float 0.8. -/
inductive PyVal
  | float (q : Rat)
  | str (s : String)
deriving DecidableEq

/-- default_min_real_dates = 0.8, as the exact rational 4/5. -/
def default_min_real_dates : Rat := mkRat 4 5

/-- Threshold selection in main: args.min_real_dates if truthy else the
default; the CLI value is a string and an empty string is falsy. -/
def selectMinRealDates (arg : Option String) : PyVal :=
  match arg with
  | none => PyVal.float default_min_real_dates
  | some s => if s = "" then PyVal.float default_min_real_dates else PyVal.str s

/-- The comparison real_dates_proportion < min_real_dates: comparing a float
with a float yields a Bool, comparing a float with a str raises TypeError. -/
def pyLtFloat (x : Rat) (v : PyVal) : Except String Bool :=
  match v with
  | PyVal.float y => Except.ok (decide (x < y))
  | PyVal.str _ => Except.error "TypeError: unsupported comparison between float and str"

/-! ## Helper lemmas -/

/-- Looking up a key right after dict assignment returns the assigned value. -/
lemma lookup_dictSet {α : Type} (k : String) (v : α) (l : List (String × α)) :
    List.lookup k (dictSet k v l) = some v := by
  induction l with
  | nil => simp [dictSet, List.lookup]
  | cons p rest ih =>
      obtain ⟨k0, v0⟩ := p
      by_cases h : k0 = k
      · simp [dictSet, h, List.lookup]
      · simp only [dictSet, if_neg h, List.lookup]
        have : (k == k0) = false := by
          simp [beq_iff_eq]
          exact fun he => h he.symm
        rw [this]
        exact ih

/-- Translation never truncates: it always yields one amino-acid symbol per
complete codon, stop codons included. -/
lemma translateSeq_length : ∀ s : List Base, (translateSeq s).length = s.length / 3
  | [] => by simp [translateSeq]
  | [_] => by simp [translateSeq]
  | [_, _] => by simp [translateSeq]
  | b1 :: b2 :: b3 :: rest => by
      have ih := translateSeq_length rest
      simp only [translateSeq, List.length_cons, ih]
      omega

/-- Reverse-complementing preserves length. -/
lemma reverseComplement_length (s : List Base) : (reverseComplement s).length = s.length := by
  simp [reverseComplement]

/-- The per-feature loop body never changes a feature's type tag. -/
lemma alterFeature_ftype (s : List Base) (f : Feature) : (alterFeature s f).ftype = f.ftype := by
  unfold alterFeature
  repeat' split
  all_goals rfl

/-- The per-feature loop body never changes a feature's location. -/
lemma alterFeature_location (s : List Base) (f : Feature) :
    (alterFeature s f).location = f.location := by
  unfold alterFeature
  repeat' split
  all_goals rfl

/-! ## Concrete records used as evaluation inputs -/

/-- The spec's example sequence AAATTTGGGCCCAAATTT. -/
def exSeq18 : List Base :=
  [Base.A, Base.A, Base.A, Base.T, Base.T, Base.T, Base.G, Base.G, Base.G,
    Base.C, Base.C, Base.C, Base.A, Base.A, Base.A, Base.T, Base.T, Base.T]

/-- A reverse-strand CDS feature at range [10,16). -/
def exFeatRev : Feature :=
  { ftype := "CDS", location := Location.simple 10 16 (some (-1)), qualifiers := [] }

/-- Record carrying the reverse-strand CDS on the example sequence. -/
def exRecRev : SeqRecord :=
  { seq := exSeq18, id := "r", name := "r", description := "", annots := [], features := [exFeatRev] }

/-- Replacement FASTA record with the same example sequence. -/
def exFastaRev : SeqRecord :=
  { seq := exSeq18, id := "f", name := "f", description := "", annots := [], features := [] }

/-- A forward-strand CDS at [0,3) whose recorded translation K matches its
sequence AAA. -/
def exFeatK : Feature :=
  { ftype := "CDS", location := Location.simple 0 3 (some 1), qualifiers := [("translation", ["K"])] }

/-- Record with sequence AAA and the consistent CDS above. -/
def exGbffK : SeqRecord :=
  { seq := [Base.A, Base.A, Base.A], id := "g", name := "g", description := "d",
    annots := [("organism", "virus")], features := [exFeatK] }

/-- Replacement record with sequence TTT, which changes the CDS translation. -/
def exFastaT : SeqRecord :=
  { seq := [Base.T, Base.T, Base.T], id := "f", name := "f", description := "d",
    annots := [], features := [] }

/-! ## Claims -/

/-- Claim C1: for a feature of type CDS, gene or mRNA whose location is a
simple contiguous range [start, stop), alter_gbff slices the replacement
sequence at [start, stop), reverse-complements the slice exactly when the
strand is reverse, and for CDS features only overwrites the translation
qualifier with the amino-acid translation of that slice computed without
stopping at the first stop codon (the translation always has one symbol per
complete codon of the slice, so internal stops never truncate it); gene and
mRNA features pass through unchanged. -/
theorem c1_alter_gbff_cds_translation (gbff fasta : SeqRecord) (i : Nat) (f : Feature)
    (start stop : Nat) (strand : Option Int)
    (hf : gbff.features[i]? = some f)
    (hloc : f.location = Location.simple start stop strand) :
    (alter_gbff gbff fasta).features[i]? = some (alterFeature fasta.seq f) ∧
    (f.ftype = "CDS" →
      (alterFeature fasta.seq f).location = f.location ∧
      List.lookup "translation" (alterFeature fasta.seq f).qualifiers =
        some [String.mk (translateSeq
          (if strand = some (-1) then reverseComplement (pySlice fasta.seq start stop)
           else pySlice fasta.seq start stop))] ∧
      (translateSeq
          (if strand = some (-1) then reverseComplement (pySlice fasta.seq start stop)
           else pySlice fasta.seq start stop)).length =
        (pySlice fasta.seq start stop).length / 3) ∧
    ((f.ftype = "gene" ∨ f.ftype = "mRNA") → alterFeature fasta.seq f = f) := by
  refine ⟨?_, ?_, ?_⟩
  · simp [alter_gbff, hf]
  · intro hcds
    refine ⟨alterFeature_location fasta.seq f, ?_, ?_⟩
    · unfold alterFeature
      rw [hloc]
      simp only [hcds, true_or, if_true, if_pos]
      split <;> simp [lookup_dictSet]
    · split <;> simp [translateSeq_length, reverseComplement_length]
  · intro hg
    have hcond : f.ftype = "CDS" ∨ f.ftype = "gene" ∨ f.ftype = "mRNA" := Or.inr hg
    have hncds : ¬ f.ftype = "CDS" := by
      rcases hg with h | h <;> rw [h] <;> decide
    unfold alterFeature
    rw [hloc]
    simp [hcond, hncds]

/-- Evaluation of claim C1 on the spec's reverse-strand example: the feature
at [10,16) on AAATTTGGGCCCAAATTT translates the reverse complement of
positions 10-15, giving IW. -/
theorem c1_alter_gbff_cds_translation_witness :
    (alter_gbff exRecRev exFastaRev).features[0]? = some (alterFeature exFastaRev.seq exFeatRev) ∧
    List.lookup "translation" (alterFeature exFastaRev.seq exFeatRev).qualifiers = some ["IW"] := by
  have h := c1_alter_gbff_cds_translation exRecRev exFastaRev 0 exFeatRev 10 16 (some (-1)) rfl rfl
  refine ⟨h.1, ?_⟩
  rw [(h.2.1 rfl).2.1]
  rfl

/-- Claim C2 counterexample: alter_gbff is not pure. The new record receives
the input record's feature list by reference and the loop mutates the shared
CDS features in place, so after the call the input record's translation
qualifier has been overwritten: with input translation K and replacement
sequence TTT the input record is changed. -/
theorem c2_alter_gbff_not_pure_counterexample :
    alter_gbff_post exGbffK exFastaT ≠ exGbffK := by decide

/-- Claim C2 amended: alter_gbff shares the input record's feature list with
the output instead of deep-copying it, so after the call the input record's
features are exactly the output record's recomputed features (its other
fields are untouched); the input record is left unmodified precisely when
recomputing every feature changes nothing. Feature types and coordinates are
never changed, only qualifiers. -/
theorem c2_alter_gbff_shared_features (gbff fasta : SeqRecord) :
    (alter_gbff_post gbff fasta).seq = gbff.seq ∧
    (alter_gbff_post gbff fasta).id = gbff.id ∧
    (alter_gbff_post gbff fasta).annots = gbff.annots ∧
    (alter_gbff_post gbff fasta).features = (alter_gbff gbff fasta).features ∧
    (∀ f ∈ gbff.features,
      (alterFeature fasta.seq f).ftype = f.ftype ∧
      (alterFeature fasta.seq f).location = f.location) ∧
    (alter_gbff_post gbff fasta = gbff ↔
      gbff.features.map (alterFeature fasta.seq) = gbff.features) := by
  refine ⟨rfl, rfl, rfl, rfl, ?_, ?_⟩
  · intro f _
    exact ⟨alterFeature_ftype fasta.seq f, alterFeature_location fasta.seq f⟩
  · constructor
    · intro h
      have := congrArg SeqRecord.features h
      simpa [alter_gbff_post] using this
    · intro h
      cases gbff
      simp only [alter_gbff_post] at *
      simp [h]

/-- Evaluation of the amended claim C2 on the concrete records: the sharing
equation holds and the input is changed because recomputation changes the
features. -/
theorem c2_alter_gbff_shared_features_witness :
    (alter_gbff_post exGbffK exFastaT).features = (alter_gbff exGbffK exFastaT).features ∧
    ((alter_gbff_post exGbffK exFastaT = exGbffK) ↔
      (exGbffK.features.map (alterFeature exFastaT.seq) = exGbffK.features)) :=
  ⟨(c2_alter_gbff_shared_features exGbffK exFastaT).2.2.2.1,
    (c2_alter_gbff_shared_features exGbffK exFastaT).2.2.2.2.2⟩

/-- Claim C3: substituting a record's own sequence for itself leaves every
feature's translation qualifier unchanged, provided the record satisfies the
data-model invariant that each simple-location CDS feature's recorded
translation equals the translation recomputed from the record's own
sequence. -/
theorem c3_identity_substitution_translations (gbff fasta : SeqRecord)
    (hseq : fasta.seq = gbff.seq)
    (hinv : ∀ f ∈ gbff.features, f.ftype = "CDS" →
      ∀ start stop strand, f.location = Location.simple start stop strand →
        List.lookup "translation" f.qualifiers =
          some [String.mk (translateSeq
            (if strand = some (-1) then reverseComplement (pySlice gbff.seq start stop)
             else pySlice gbff.seq start stop))]) :
    (alter_gbff gbff fasta).features = gbff.features.map (alterFeature fasta.seq) ∧
    ∀ f ∈ gbff.features,
      List.lookup "translation" (alterFeature fasta.seq f).qualifiers =
        List.lookup "translation" f.qualifiers := by
  refine ⟨rfl, ?_⟩
  intro f hf
  by_cases hcond : f.ftype = "CDS" ∨ f.ftype = "gene" ∨ f.ftype = "mRNA"
  · cases hl : f.location with
    | simple start stop strand =>
        by_cases hcds : f.ftype = "CDS"
        · unfold alterFeature
          rw [hl]
          simp only [hcds, true_or, if_true]
          simp [lookup_dictSet, hinv f hf hcds start stop strand hl, hseq]
        · unfold alterFeature
          rw [hl]
          simp [hcond, hcds]
    | compound parts =>
        unfold alterFeature
        rw [hl]
        simp [hcond]
  · unfold alterFeature
    simp [hcond]

/-- Evaluation of claim C3 on the concrete consistent record: identity
substitution keeps the CDS translation K. -/
theorem c3_identity_substitution_translations_witness :
    List.lookup "translation" (alterFeature exGbffK.seq exFeatK).qualifiers =
      List.lookup "translation" exFeatK.qualifiers := by
  have hinv : ∀ f ∈ exGbffK.features, f.ftype = "CDS" →
      ∀ start stop strand, f.location = Location.simple start stop strand →
        List.lookup "translation" f.qualifiers =
          some [String.mk (translateSeq
            (if strand = some (-1) then reverseComplement (pySlice exGbffK.seq start stop)
             else pySlice exGbffK.seq start stop))] := by
    intro f hf hcds start stop strand hloc
    have hfK : f = exFeatK := List.mem_singleton.mp hf
    subst hfK
    have hlocK : Location.simple 0 3 (some 1) = Location.simple start stop strand := hloc
    obtain ⟨h1, h2, h3⟩ := Location.simple.inj hlocK
    subst h1; subst h2; subst h3
    decide
  exact (c3_identity_substitution_translations exGbffK exGbffK rfl hinv).2 exFeatK
    (List.mem_singleton.mpr rfl)

/-- Claim C4: when the GBFF record's sequence length differs from the
replacement sequence's length, alter_gbff_file reports the length-mismatch
error and exits without producing any output record. -/
theorem c4_length_mismatch_fatal (gbff fasta : SeqRecord)
    (h : gbff.seq.length ≠ fasta.seq.length) :
    alter_gbff_file gbff fasta =
      Except.error "Error: The length of the FASTA sequence must match the length of the GBFF sequence." ∧
    ∀ r : SeqRecord, alter_gbff_file gbff fasta ≠ Except.ok r := by
  constructor
  · simp [alter_gbff_file, h]
  · intro r hr
    rw [alter_gbff_file, if_pos h] at hr
    cases hr

/-- A 1000-nt record. -/
def exRec1000 : SeqRecord :=
  { seq := List.replicate 1000 Base.A, id := "g", name := "g", description := "",
    annots := [], features := [] }

/-- A 999-nt replacement. -/
def exRec999 : SeqRecord :=
  { seq := List.replicate 999 Base.A, id := "f", name := "f", description := "",
    annots := [], features := [] }

/-- Evaluation of claim C4: a 1000-nt record given a 999-nt replacement fails
with the length-mismatch error. -/
theorem c4_length_mismatch_fatal_witness :
    alter_gbff_file exRec1000 exRec999 =
      Except.error "Error: The length of the FASTA sequence must match the length of the GBFF sequence." :=
  (c4_length_mismatch_fatal exRec1000 exRec999 (by
    rw [show exRec1000.seq = List.replicate 1000 Base.A from rfl,
      show exRec999.seq = List.replicate 999 Base.A from rfl,
      List.length_replicate, List.length_replicate]
    decide)).1

/-- Characterization of the get_oldest_node fold: the loop returns none
exactly on zero qualifying rows, and otherwise returns the qualifying row of
minimum age such that every earlier qualifying row has strictly greater age
(first occurrence wins ties, because only a strictly smaller age replaces the
running minimum). -/
lemma oldest_fold_spec (rows : List (String × Rat)) :
    (rows.foldl oldestStep none = none →
      rows.filter (fun r => pyStartswith r.1 "node_") = []) ∧
    (∀ a n, rows.foldl oldestStep none = some (a, n) →
      ∃ l1 l2,
        rows.filter (fun r => pyStartswith r.1 "node_") = l1 ++ (n, a) :: l2 ∧
        (∀ y ∈ rows.filter (fun r => pyStartswith r.1 "node_"), a ≤ y.2) ∧
        (∀ y ∈ l1, a < y.2)) := by
  induction rows using List.reverseRecOn with
  | nil => simp
  | append_singleton l x ih =>
      rw [List.foldl_append, List.filter_append]
      simp only [List.foldl_cons, List.foldl_nil, List.filter_cons, List.filter_nil]
      by_cases hx : pyStartswith x.1 "node_"
      · rw [if_pos hx]
        cases hF : l.foldl oldestStep none with
        | none =>
            have hq : l.filter (fun r => pyStartswith r.1 "node_") = [] := ih.1 hF
            constructor
            · intro hcontra
              rw [oldestStep, if_pos hx] at hcontra
              cases hcontra
            · intro a n hsome
              rw [oldestStep, if_pos hx] at hsome
              obtain ⟨ha, hn⟩ := Prod.mk.inj (Option.some.inj hsome)
              refine ⟨[], [], ?_, ?_, ?_⟩
              · rw [hq]
                simp [← ha, ← hn]
              · intro y hy
                rw [hq, List.nil_append, List.mem_singleton] at hy
                subst hy
                exact le_of_eq ha.symm
              · intro y hy
                cases hy
        | some p =>
            obtain ⟨m, n0⟩ := p
            obtain ⟨l1, l2, hq, hmin, hfirst⟩ := ih.2 m n0 hF
            constructor
            · intro hcontra
              rw [oldestStep, if_pos hx] at hcontra
              split at hcontra <;> cases hcontra
            · intro a n hsome
              rw [oldestStep, if_pos hx] at hsome
              by_cases hlt : x.2 < m
              · rw [if_pos hlt] at hsome
                obtain ⟨ha, hn⟩ := Prod.mk.inj (Option.some.inj hsome)
                refine ⟨l.filter (fun r => pyStartswith r.1 "node_"), [], ?_, ?_, ?_⟩
                · rw [← ha, ← hn]
                · intro y hy
                  simp only [List.mem_append, List.mem_singleton] at hy
                  rcases hy with hy | hy
                  · have := hmin y hy
                    rw [← ha]
                    exact le_of_lt (lt_of_lt_of_le hlt this)
                  · rw [hy, ← ha]
                · intro y hy
                  have := hmin y hy
                  rw [← ha]
                  exact lt_of_lt_of_le hlt this
              · rw [if_neg hlt] at hsome
                obtain ⟨ha, hn⟩ := Prod.mk.inj (Option.some.inj hsome)
                have hle : a ≤ x.2 := by
                  rw [← ha]
                  exact le_of_not_lt hlt
                refine ⟨l1, l2 ++ [x], ?_, ?_, ?_⟩
                · rw [hq, ← ha, ← hn]
                  simp
                · intro y hy
                  simp only [List.mem_append, List.mem_singleton] at hy
                  rcases hy with hy | hy
                  · rw [← ha]
                    exact hmin y hy
                  · rw [hy]
                    exact hle
                · intro y hy
                  rw [← ha]
                  exact hfirst y hy
      · rw [if_neg hx]
        have hstep : oldestStep (l.foldl oldestStep none) x = l.foldl oldestStep none := by
          rw [oldestStep.eq_def, if_neg hx]
        rw [hstep]
        simp only [List.append_nil]
        exact ih

/-- Claim C5: get_oldest_node considers exactly the rows whose first column
starts with node_; with zero qualifying rows it fails fatally, and otherwise
it returns the qualifying row of minimum age, ties broken in favor of the
earliest such row in the file (every strictly earlier qualifying row has a
strictly larger age). -/
theorem c5_get_oldest_node_minimum (rows : List (String × Rat)) :
    (rows.filter (fun r => pyStartswith r.1 "node_") = [] →
      get_oldest_node rows = Except.error "Failed to get oldest node from rtt.csv") ∧
    (rows.filter (fun r => pyStartswith r.1 "node_") ≠ [] →
      ∃ n a l1 l2,
        get_oldest_node rows = Except.ok n ∧
        rows.filter (fun r => pyStartswith r.1 "node_") = l1 ++ (n, a) :: l2 ∧
        (∀ y ∈ rows.filter (fun r => pyStartswith r.1 "node_"), a ≤ y.2) ∧
        (∀ y ∈ l1, a < y.2)) := by
  cases hF : rows.foldl oldestStep none with
  | none =>
      have hq := (oldest_fold_spec rows).1 hF
      constructor
      · intro _
        rw [get_oldest_node, hF]
      · intro hne
        exact absurd hq hne
  | some p =>
      obtain ⟨a, n⟩ := p
      obtain ⟨l1, l2, hq, hmin, hfirst⟩ := (oldest_fold_spec rows).2 a n hF
      constructor
      · intro hempty
        rw [hempty] at hq
        cases l1 <;> cases hq
      · intro _
        refine ⟨n, a, l1, l2, ?_, hq, hmin, hfirst⟩
        rw [get_oldest_node, hF]

/-- The spec's oldest-node example rows. -/
def exRtt : List (String × Rat) := [("node_A", 5), ("node_B", 2), ("node_C", 8)]

/-- Evaluation of claim C5: on the example rows the minimum-age row exists and
is node_B, and a report with no node_ rows fails. -/
theorem c5_get_oldest_node_minimum_witness :
    (∃ n a l1 l2,
      get_oldest_node exRtt = Except.ok n ∧
      exRtt.filter (fun r => pyStartswith r.1 "node_") = l1 ++ (n, a) :: l2 ∧
      (∀ y ∈ exRtt.filter (fun r => pyStartswith r.1 "node_"), a ≤ y.2) ∧
      (∀ y ∈ l1, a < y.2)) ∧
    get_oldest_node [("leaf_x", 1)] = Except.error "Failed to get oldest node from rtt.csv" ∧
    get_oldest_node exRtt = Except.ok "node_B" :=
  ⟨(c5_get_oldest_node_minimum exRtt).2 (by decide),
    (c5_get_oldest_node_minimum [("leaf_x", 1)]).1 (by decide),
    by decide⟩

/-- Stats table with a ref_length column holding the nonpositive value -5. -/
def exStatsNeg : StatsTable :=
  { fieldnames := ["name", "ref_length"], rows := [[("name", "x"), ("ref_length", "-5")]] }

/-- Stats table in the old variant's format with no refseq_length column. -/
def exStatsNoCol : StatsTable :=
  { fieldnames := ["name"], rows := [] }

/-- Claim C6 counterexample: neither variant checks that the reference length
is positive, and the old variant does not fail on a missing column. With a
ref_length value of -5 the updated get_refseq_len returns -5 without any
error, and with the refseq_length column absent the old get_refseq_len
returns the silent default -1 instead of failing. -/
theorem c6_refseq_len_counterexample :
    get_refseq_len exStatsNeg = Except.ok (-5) ∧
    get_refseq_len_old exStatsNoCol = Except.ok (-1) := by
  constructor <;> decide

/-- Claim C6 amended: the updated variant's get_refseq_len fails fatally
exactly when the ref_length column is absent and otherwise returns the last
row's parsed value whatever its sign; the old variant returns the silent
default -1 when its refseq_length column is absent. No positivity check
exists in either variant. -/
theorem c6_refseq_len_behavior (t : StatsTable) :
    ("ref_length" ∉ t.fieldnames →
      get_refseq_len t = Except.error "output_stats.tsv file does not have ref_length column") ∧
    (∀ v : Int, "ref_length" ∈ t.fieldnames →
      lastColumnValue "ref_length" t.rows = Except.ok (some v) →
      get_refseq_len t = Except.ok v) ∧
    ("refseq_length" ∉ t.fieldnames → get_refseq_len_old t = Except.ok (-1)) := by
  refine ⟨?_, ?_, ?_⟩
  · intro h
    rw [get_refseq_len, if_neg h]
  · intro v hmem hlast
    rw [get_refseq_len, if_pos hmem, hlast]
  · intro h
    rw [get_refseq_len_old, if_neg h]

/-- Evaluation of the amended claim C6 on concrete tables: missing ref_length
column is fatal in the updated variant, a negative value passes through, and
the old variant silently yields -1. -/
theorem c6_refseq_len_behavior_witness :
    get_refseq_len exStatsNoCol = Except.error "output_stats.tsv file does not have ref_length column" ∧
    get_refseq_len exStatsNeg = Except.ok (-5) ∧
    get_refseq_len_old exStatsNoCol = Except.ok (-1) :=
  ⟨(c6_refseq_len_behavior exStatsNoCol).1 (by decide),
    (c6_refseq_len_behavior exStatsNeg).2.1 (-5) (by decide) (by decide),
    (c6_refseq_len_behavior exStatsNoCol).2.2 (by decide)⟩

/-- Claim C7: with a real-date proportion below the threshold, run_treetime
logs the reason and terminates with exit status 0 before writing the scaled
tree or the dates file; with the proportion at or above the threshold it
proceeds to the later stages and never exits early. -/
theorem c7_low_dates_clean_exit (p t : Rat) :
    (p < t →
      run_treetime_gate p t = [PipelineAction.logLowDates, PipelineAction.exitProcess 0] ∧
      PipelineAction.writeScaledTree ∉ run_treetime_gate p t ∧
      PipelineAction.writeDatesCsv ∉ run_treetime_gate p t ∧
      PipelineAction.runTreetimeClock ∉ run_treetime_gate p t) ∧
    (t ≤ p →
      run_treetime_gate p t =
        [PipelineAction.getRefLen, PipelineAction.writeScaledTree,
          PipelineAction.writeDatesCsv, PipelineAction.runTreetimeClock] ∧
      ∀ c : Nat, PipelineAction.exitProcess c ∉ run_treetime_gate p t) := by
  constructor
  · intro h
    have e : run_treetime_gate p t = [PipelineAction.logLowDates, PipelineAction.exitProcess 0] := by
      rw [run_treetime_gate, if_pos h]
    refine ⟨e, ?_, ?_, ?_⟩ <;> rw [e] <;> decide
  · intro h
    have e : run_treetime_gate p t =
        [PipelineAction.getRefLen, PipelineAction.writeScaledTree,
          PipelineAction.writeDatesCsv, PipelineAction.runTreetimeClock] := by
      rw [run_treetime_gate, if_neg (not_lt.mpr h)]
    refine ⟨e, ?_⟩
    intro c
    rw [e]
    simp

/-- Evaluation of claim C7 at the spec's end-to-end scenario: 7/10 real dates
against threshold 0.8 exits cleanly with nothing written, 9/10 proceeds. -/
theorem c7_low_dates_clean_exit_witness :
    run_treetime_gate (mkRat 7 10) default_min_real_dates =
      [PipelineAction.logLowDates, PipelineAction.exitProcess 0] ∧
    run_treetime_gate (mkRat 9 10) default_min_real_dates =
      [PipelineAction.getRefLen, PipelineAction.writeScaledTree,
        PipelineAction.writeDatesCsv, PipelineAction.runTreetimeClock] :=
  ⟨((c7_low_dates_clean_exit (mkRat 7 10) default_min_real_dates).1 (by decide)).1,
    ((c7_low_dates_clean_exit (mkRat 9 10) default_min_real_dates).2 (by decide)).1⟩

/-- A full-pattern year match forces the string's four characters. -/
lemma matchYear_toList (s : String) (h : matchYear s = true) : s.toList.length = 4 := by
  unfold matchYear at h
  split at h
  · rename_i a b c d heq
    rw [heq]
    rfl
  · cases h

/-- A full-pattern year-month match forces the string's seven characters. -/
lemma matchYearMonth_toList (s : String) (h : matchYearMonth s = true) : s.toList.length = 7 := by
  unfold matchYearMonth at h
  split at h
  · rename_i a b c d h0 m1 m2 heq
    rw [heq]
    rfl
  · cases h

/-- Claim C8: make_dates_csv appends -XX-XX to a bare 4-digit year, appends
-XX to a YYYY-MM date, passes any other date through unchanged (hence is the
identity on already-canonical full dates such as 2020-01-15), and writes the
header line followed by one name,date row per entry of the input mapping in
its iteration order. -/
theorem c8_make_dates_csv_normalization (m : List (String × String)) (d : String) :
    (matchYear d = true → normalizeDate d = d ++ "-XX-XX") ∧
    (matchYearMonth d = true → normalizeDate d = d ++ "-XX") ∧
    (matchYear d = false → matchYearMonth d = false → normalizeDate d = d) ∧
    normalizeDate "2020-01-15" = "2020-01-15" ∧
    make_dates_csv m = "name,date" :: m.map (fun p => p.1 ++ "," ++ normalizeDate p.2) := by
  refine ⟨?_, ?_, ?_, ?_, rfl⟩
  · intro h
    rw [normalizeDate, if_pos h]
  · intro h
    have hy : matchYear d = false := by
      cases hy : matchYear d with
      | false => rfl
      | true =>
          have h4 := matchYear_toList d hy
          have h7 := matchYearMonth_toList d h
          rw [h4] at h7
          cases h7
    rw [normalizeDate, if_neg (by simp [hy]), if_pos h]
  · intro h1 h2
    rw [normalizeDate, if_neg (by simp [h1]), if_neg (by simp [h2])]
  · rfl

/-- Evaluation of claim C8: a year gains -XX-XX, a year-month gains -XX, a
full date is unchanged, and the rows come out in order behind the header. -/
theorem c8_make_dates_csv_normalization_witness :
    normalizeDate "2020" = "2020-XX-XX" ∧
    normalizeDate "2020-01" = "2020-01-XX" ∧
    normalizeDate "2020-01-15" = "2020-01-15" ∧
    make_dates_csv [("a", "2020"), ("b", "2021-06")] =
      ["name,date", "a,2020-XX-XX", "b,2021-06-XX"] := by
  refine ⟨?_, ?_, (c8_make_dates_csv_normalization [] "x").2.2.2.1, ?_⟩
  · have h := (c8_make_dates_csv_normalization [] "2020").1 (by decide)
    rw [h]
    rfl
  · have h := (c8_make_dates_csv_normalization [] "2020-01").2.1 (by decide)
    rw [h]
    rfl
  · have h := (c8_make_dates_csv_normalization [("a", "2020"), ("b", "2021-06")] "x").2.2.2.2
    rw [h]
    rfl

/-- Claim C9: on a metadata table whose header passes the schema checks
(strain in first position, date column present) but which has zero data rows,
get_dates does not return a completeness report: the final division of the
matching-date count by the zero row count raises ZeroDivisionError. -/
theorem c9_get_dates_empty_divzero (md : Metadata)
    (hstrain : List.indexOf? "strain" (md.header.map pyStrip) = some 0)
    (hdate : List.indexOf? "date" (md.header.map pyStrip) ≠ none)
    (hrows : md.rows = []) :
    get_dates md = Except.error "ZeroDivisionError: division by zero" := by
  obtain ⟨j, hj⟩ := Option.ne_none_iff_exists.mp hdate
  unfold get_dates
  simp only [hstrain, hrows, ← hj]
  rfl

/-- Evaluation of claim C9 on a header-only metadata table. -/
theorem c9_get_dates_empty_divzero_witness :
    get_dates { header := ["strain", "date"], rows := [] } =
      Except.error "ZeroDivisionError: division by zero" :=
  c9_get_dates_empty_divzero { header := ["strain", "date"], rows := [] }
    (by decide) (by decide) rfl

/-- Claim C10 counterexample: a threshold supplied on the command line as the
empty string is not kept as a string at all; being falsy it falls back to the
numeric default 0.8 and the gate comparison is well-typed, so the comparison
is not ill-typed for every user-supplied threshold. -/
theorem c10_threshold_counterexample :
    selectMinRealDates (some "") = PyVal.float default_min_real_dates ∧
    pyLtFloat (mkRat 1 2) (selectMinRealDates (some "")) = Except.ok true := by
  constructor <;> decide

/-- Claim C10 amended: every nonempty threshold string supplied on the
command line is kept as a string, never converted to a number, making the
gate comparison raise TypeError; only an absent or empty (falsy) argument
yields the numeric built-in default 0.8, with which the comparison is
well-typed. -/
theorem c10_threshold_string_typeerror (s : String) (p : Rat) :
    (s ≠ "" →
      selectMinRealDates (some s) = PyVal.str s ∧
      pyLtFloat p (selectMinRealDates (some s)) =
        Except.error "TypeError: unsupported comparison between float and str") ∧
    selectMinRealDates none = PyVal.float default_min_real_dates ∧
    pyLtFloat p (selectMinRealDates none) = Except.ok (decide (p < default_min_real_dates)) := by
  refine ⟨?_, rfl, rfl⟩
  intro h
  have e : selectMinRealDates (some s) = PyVal.str s := by
    rw [selectMinRealDates, if_neg h]
  exact ⟨e, by rw [e]; rfl⟩

/-- Evaluation of the amended claim C10: the CLI string 0.9 makes the gate
comparison raise TypeError, while the absent argument compares numerically. -/
theorem c10_threshold_string_typeerror_witness :
    pyLtFloat (mkRat 1 2) (selectMinRealDates (some "0.9")) =
      Except.error "TypeError: unsupported comparison between float and str" ∧
    pyLtFloat (mkRat 1 2) (selectMinRealDates none) = Except.ok true := by
  constructor
  · exact ((c10_threshold_string_typeerror "0.9" (mkRat 1 2)).1 (by decide)).2
  · have h := (c10_threshold_string_typeerror "0.9" (mkRat 1 2)).2.2
    rw [h]
    decide

end Reroot
